import Mathlib

/-
  Shallow embedding of the CoFoundr backend (FastAPI + asyncpg + httpx):
  founder registration/login (src/main.py) and the startup-validation call
  ledger (src/startup_validation.py).  Database tables are modelled as Lean
  lists of records, SQL point reads as List.find?, SQL UPDATE as List.map,
  and outbound HTTP replies as explicit arguments.  HTTP errors are the
  (status_code, detail) pairs that HTTPException carries.
-/

/-- An HTTPException: status code plus detail message. -/
structure HTTPError where
  status_code : Nat
  detail : String
  deriving DecidableEq, Repr

/-- 404 raised by get_validation_call and cancel_validation_call when the
row is absent or owned by another founder. -/
def notFoundErr : HTTPError := ⟨404, "Validation call not found"⟩

/-- 400 raised by cancel_validation_call on a completed or failed call
(the code's rendering of the spec's Conflict). -/
def cancelTerminalErr : HTTPError := ⟨400, "Cannot cancel a completed or failed call"⟩

/-- 400 raised by register_founder on a duplicate email (the code's
rendering of the spec's Conflict). -/
def emailConflictErr : HTTPError := ⟨400, "Email already registered"⟩

/-- 401 raised by login_founder, one shared constant for every failure
cause (unknown email, inactive account, wrong password). -/
def loginUnauthErr : HTTPError := ⟨401, "Incorrect email or password"⟩

/-- A JSON value stored inside an extracted_variables mapping. -/
inductive VarVal where
  | num (q : ℚ)
  | str (s : String)
  | other
  deriving DecidableEq, Repr

/-- Accumulator loop turning digit characters into a natural number;
none as soon as a non-digit appears. -/
def digitsToNatGo (acc : Nat) : List Char → Option Nat
  | [] => some acc
  | c :: cs => if c.isDigit then digitsToNatGo (acc * 10 + (c.toNat - 48)) cs else none

/-- All-digit character list to a natural number; none when empty or when
a non-digit appears. -/
def digitsToNat : List Char → Option Nat
  | [] => none
  | cs => digitsToNatGo 0 cs

/-- Split a character list at the first decimal point, if any. -/
def splitIntFrac : List Char → List Char × Option (List Char)
  | [] => ([], none)
  | c :: cs =>
    if c = '.' then ([], some cs)
    else
      let r := splitIntFrac cs
      (c :: r.1, r.2)

/-- Models Python float() applied to a decimal string literal: optional
sign, integer part, optional fractional part.  Strings such as "bad" give
none (ValueError in the source); a second decimal point makes the
fractional part fail the digit parse. -/
def parseDecimal (s : String) : Option ℚ :=
  let core : List Char → Option ℚ := fun ds =>
    match splitIntFrac ds with
    | (w, none) => (digitsToNat w).map (fun n => (n : ℚ))
    | (w, some f) =>
      match w, f with
      | [], [] => none
      | [], _ => (digitsToNat f).map (fun m => (m : ℚ) / (10 : ℚ) ^ f.length)
      | _, [] => (digitsToNat w).map (fun n => (n : ℚ))
      | _, _ =>
        match digitsToNat w, digitsToNat f with
        | some n, some m => some ((n : ℚ) + (m : ℚ) / (10 : ℚ) ^ f.length)
        | _, _ => none
  match s.toList with
  | '-' :: rest => (core rest).map (fun q => -q)
  | '+' :: rest => core rest
  | cs => core cs

/-- Models float(v) on a JSON value: numbers convert, strings are parsed as
decimals, anything else raises TypeError (none). -/
def pyFloat : VarVal → Option ℚ
  | .num q => some q
  | .str s => parseDecimal s
  | .other => none

/-- Models Python round(x, 2): nearest multiple of 1/100, ties to even. -/
def pyRound2 (q : ℚ) : ℚ :=
  let x := q * 100
  let f := ⌊x⌋
  let frac := x - (f : ℚ)
  let r : ℤ :=
    if frac < 1 / 2 then f
    else if 1 / 2 < frac then f + 1
    else if f % 2 = 0 then f else f + 1
  (r : ℚ) / 100

/-- Models Python int() on an exact numeric: truncation toward zero. -/
def truncToInt (q : ℚ) : ℤ := Int.tdiv q.num (q.den : ℤ)

/-- A row of the validation_calls table.  Field defaults are the column
defaults and the constants of the INSERT in initiate_validation_call. -/
structure VCall where
  id : Nat := 0
  founder_id : Nat := 0
  call_id : String := ""
  phone_number : String := ""
  startup_name : String := ""
  industry : String := ""
  business_model : String := ""
  target_market : String := ""
  additional_context : Option String := some ""
  status : String := "initiated"
  duration : Option ℤ := none
  transcript : Option String := none
  extracted_variables : Option (List (String × VarVal)) := none
  created_at : Nat := 0
  completed_at : Option Nat := none
  updated_at : Nat := 0
  deriving DecidableEq, Repr, Inhabited

/-- A row of the founders table. -/
structure Founder where
  id : Nat := 0
  email : String := ""
  password_hash : String := ""
  first_name : String := ""
  last_name : String := ""
  company_name : Option String := none
  industry : Option String := none
  is_active : Bool := true
  created_at : Nat := 0
  updated_at : Nat := 0
  deriving DecidableEq, Repr, Inhabited

/-- Request body of POST /auth/register. -/
structure FounderRegister where
  email : String
  password : String
  first_name : String := ""
  last_name : String := ""
  company_name : Option String := none
  industry : Option String := none
  deriving DecidableEq, Repr

/-- Response body of POST /auth/register. -/
structure RegisterResponse where
  message : String
  access_token : String
  token_type : String
  founder_id : Nat
  deriving DecidableEq, Repr

/-- Response body of POST /auth/login. -/
structure AuthToken where
  access_token : String
  token_type : String
  deriving DecidableEq, Repr

/-- register_founder (src/main.py).  hashPw models hash_password, signToken
models create_access_token on the email; newId and now stand for the SERIAL
id and CURRENT_TIMESTAMP the storage layer supplies.  Returns the new table
contents and the HTTP outcome. -/
def registerFounder (hashPw : String → String) (signToken : String → String)
    (db : List Founder) (reg : FounderRegister) (newId : Nat) (now : Nat) :
    List Founder × Except HTTPError RegisterResponse :=
  match db.find? (fun f => f.email == reg.email) with
  | some _ => (db, .error emailConflictErr)
  | none =>
    let f : Founder :=
      { id := newId, email := reg.email, password_hash := hashPw reg.password,
        first_name := reg.first_name, last_name := reg.last_name,
        company_name := reg.company_name, industry := reg.industry,
        is_active := true, created_at := now, updated_at := now }
    (db ++ [f],
     .ok { message := "Founder registered successfully",
           access_token := signToken reg.email, token_type := "bearer",
           founder_id := newId })

/-- login_founder (src/main.py).  verifyPw models verify_password (plain
password, stored hash).  The fetchrow filters on email and is_active. -/
def loginFounder (verifyPw : String → String → Bool) (signToken : String → String)
    (db : List Founder) (email pw : String) : Except HTTPError AuthToken :=
  match db.find? (fun f => f.email == email && f.is_active) with
  | none => .error loginUnauthErr
  | some f =>
    if verifyPw pw f.password_hash then
      .ok { access_token := signToken email, token_type := "bearer" }
    else .error loginUnauthErr

/-- Parsed JSON body the provider returns from POST /calls/dispatch. -/
structure ProviderJson where
  requestId : Option String := none
  status : Option String := none
  deriving DecidableEq, Repr

/-- The provider's raw HTTP reply: status code, body text, parsed JSON. -/
structure ProviderReply where
  status_code : Nat
  text : String := ""
  json : ProviderJson := {}
  deriving DecidableEq, Repr

/-- create_omnidim_call (src/startup_validation.py): any non-200 status is
a hard failure carrying the provider's raw body text. -/
def createOmnidimCall (reply : ProviderReply) : Except HTTPError ProviderJson :=
  if reply.status_code ≠ 200 then
    .error ⟨reply.status_code, "Failed to create call: " ++ reply.text⟩
  else .ok reply.json

/-- Response body of POST /validation/initiate-call. -/
structure ValidationCallResponse where
  call_id : String
  status : String
  message : String
  phone_number : String
  scheduled_at : Nat
  deriving DecidableEq, Repr

/-- Body of the try block of initiate_validation_call: provider dispatch,
requestId truthiness check (a missing or empty requestId is falsy in
Python), then the INSERT with empty placeholder metadata. -/
def initiateInner (db : List VCall) (fid : Nat) (phone : String)
    (reply : ProviderReply) (now : Nat) (newRowId : Nat) :
    Except HTTPError (List VCall × ValidationCallResponse) :=
  match createOmnidimCall reply with
  | .error e => .error e
  | .ok pj =>
    match pj.requestId with
    | none => .error ⟨500, "Omnidim did not return a requestId"⟩
    | some s =>
      if s = "" then .error ⟨500, "Omnidim did not return a requestId"⟩
      else
        let callId := "omnidim-" ++ s
        let row : VCall :=
          { id := newRowId, founder_id := fid, call_id := callId,
            phone_number := phone, created_at := now, updated_at := now }
        .ok (db ++ [row],
             { call_id := callId, status := pj.status.getD "initiated",
               message := "Validation call initiated successfully",
               phone_number := phone, scheduled_at := now })

/-- initiate_validation_call (src/startup_validation.py): the enclosing
except Exception turns every failure into a 500 and no row is written. -/
def initiateValidationCall (db : List VCall) (fid : Nat) (phone : String)
    (reply : ProviderReply) (now : Nat) (newRowId : Nat) :
    List VCall × Except HTTPError ValidationCallResponse :=
  match initiateInner db fid phone reply now newRowId with
  | .ok (db2, resp) => (db2, .ok resp)
  | .error e => (db, .error ⟨500, "Failed to initiate validation call: " ++ e.detail⟩)

/-- Response body of GET /validation/calls/{call_id}. -/
structure CallStatusResponse where
  call_id : String
  status : String
  duration : Option ℤ
  transcript : Option String
  analysis : Option (List (String × VarVal))
  created_at : Nat
  completed_at : Option Nat
  deriving DecidableEq, Repr

/-- The fetchrow shared by get_validation_call and cancel_validation_call:
WHERE call_id = $1 AND founder_id = $2. -/
def findOwnedCall (db : List VCall) (cid : String) (fid : Nat) : Option VCall :=
  db.find? (fun c => c.call_id == cid && c.founder_id == fid)

/-- get_validation_call (src/startup_validation.py). -/
def getValidationCall (db : List VCall) (fid : Nat) (cid : String) :
    Except HTTPError CallStatusResponse :=
  match findOwnedCall db cid fid with
  | none => .error notFoundErr
  | some c =>
    .ok { call_id := c.call_id, status := c.status, duration := c.duration,
          transcript := c.transcript, analysis := c.extracted_variables,
          created_at := c.created_at, completed_at := c.completed_at }

/-- Nested call_report object of the provider's webhook payload. -/
structure OmnidimCallReport where
  summary : Option String := none
  sentiment : Option String := none
  extracted_variables : Option (List (String × VarVal)) := none
  full_conversation : Option String := none
  interactions : Option (List (List (String × VarVal))) := none
  deriving DecidableEq, Repr

/-- Webhook payload (OmnidimWebhookPayload in the source); call_id is an
integer there. -/
structure WebhookPayload where
  call_id : ℤ
  bot_id : ℤ := 0
  bot_name : String := ""
  phone_number : String := ""
  call_date : String := ""
  user_email : String := ""
  call_report : Option OmnidimCallReport := none
  deriving DecidableEq, Repr

/-- The row key the webhook UPDATE matches on: the provider tag glued to
the payload's integer call id. -/
def webhookKey (p : WebhookPayload) : String := "omnidim-" ++ toString p.call_id

/-- Transcript value stored by the webhook UPDATE. -/
def webhookTranscript (p : WebhookPayload) : Option String :=
  match p.call_report with
  | none => none
  | some r => r.full_conversation

/-- Extracted-variables value stored by the webhook UPDATE; Python
truthiness makes an empty mapping store NULL. -/
def webhookVars (p : WebhookPayload) : Option (List (String × VarVal)) :=
  match p.call_report with
  | none => none
  | some r =>
    match r.extracted_variables with
    | none => none
    | some vars => if vars.isEmpty then none else some vars

/-- Effect of the webhook UPDATE on one row: rows whose call_id equals the
key are set to completed with payload data; all other rows are untouched. -/
def webhookUpdRow (p : WebhookPayload) (completedAt now : Nat) (r : VCall) : VCall :=
  if r.call_id == webhookKey p then
    { r with status := "completed", transcript := webhookTranscript p,
             extracted_variables := webhookVars p,
             completed_at := some completedAt, updated_at := now }
  else r

/-- JSON body the webhook handler returns on success. -/
structure WebhookResponse where
  status : String
  message : String
  deriving DecidableEq, Repr

def webhookSuccess : WebhookResponse := ⟨"success", "Webhook processed successfully"⟩

/-- omnidim_webhook (src/startup_validation.py).  parseDate models the
permissive dateutil parse; on failure completed_at falls back to now.  The
UPDATE matches zero or more rows and the handler answers success either
way. -/
def omnidimWebhook (db : List VCall) (p : WebhookPayload)
    (parseDate : String → Option Nat) (now : Nat) : List VCall × WebhookResponse :=
  let completedAt := (parseDate p.call_date).getD now
  (db.map (webhookUpdRow p completedAt now), webhookSuccess)

/-- Outcome of the outbound DELETE to the provider: an HTTP reply of any
status, or an httpx.RequestError (transport failure). -/
inductive TransportResult where
  | response (status_code : Nat)
  | transportError
  deriving DecidableEq, Repr

/-- Effect of the cancellation UPDATE on one row (WHERE call_id = $1). -/
def cancelUpdRow (cid : String) (now : Nat) (r : VCall) : VCall :=
  if r.call_id == cid then { r with status := "cancelled", updated_at := now } else r

/-- Response body of DELETE /validation/calls/{call_id}. -/
structure CancelResponse where
  message : String
  deriving DecidableEq, Repr

def cancelSuccessMsg : CancelResponse := ⟨"Validation call cancelled successfully"⟩

def cancelLocalMsg : CancelResponse := ⟨"Call cancelled locally, but API cancellation may have failed"⟩

/-- cancel_validation_call (src/startup_validation.py): ownership-scoped
lookup, terminal-status guard, provider DELETE whose HTTP status is
ignored, local UPDATE to cancelled; a transport failure on the DELETE is
caught and the row is still cancelled with a warning message. -/
def cancelValidationCall (db : List VCall) (fid : Nat) (cid : String)
    (deleteOutcome : TransportResult) (now : Nat) :
    List VCall × Except HTTPError CancelResponse :=
  match findOwnedCall db cid fid with
  | none => (db, .error notFoundErr)
  | some c =>
    if c.status == "completed" || c.status == "failed" then
      (db, .error cancelTerminalErr)
    else
      let db2 := db.map (cancelUpdRow cid now)
      match deleteOutcome with
      | .response _ => (db2, .ok cancelSuccessMsg)
      | .transportError => (db2, .ok cancelLocalMsg)

/-- The founder's rows (WHERE founder_id = $1). -/
def founderCalls (db : List VCall) (fid : Nat) : List VCall :=
  db.filter (fun c => c.founder_id == fid)

/-- Insert into a list kept in created_at-descending order. -/
def insertByCreatedDesc (c : VCall) : List VCall → List VCall
  | [] => [c]
  | x :: xs =>
    if x.created_at ≤ c.created_at then c :: x :: xs
    else x :: insertByCreatedDesc c xs

/-- ORDER BY created_at DESC, modelled as insertion sort. -/
def sortByCreatedDesc : List VCall → List VCall
  | [] => []
  | x :: xs => insertByCreatedDesc x (sortByCreatedDesc xs)

/-- The recent_calls query of get_validation_analytics: the founder's rows
ordered by created_at descending, LIMIT 5. -/
def recentCalls (db : List VCall) (fid : Nat) : List VCall :=
  (sortByCreatedDesc (founderCalls db fid)).take 5

/-- The feedback-score extraction loop body: Python truthiness on the
mapping, key membership test, then float() with ValueError and TypeError
swallowed. -/
def feedbackScoreOf (c : VCall) : Option ℚ :=
  match c.extracted_variables with
  | none => none
  | some vars =>
    if vars.isEmpty then none
    else
      match List.lookup "feedback_score" vars with
      | none => none
      | some v => pyFloat v

/-- The feedback_scores list the analytics handler accumulates. -/
def feedbackScores (db : List VCall) (fid : Nat) : List ℚ :=
  (recentCalls db fid).filterMap feedbackScoreOf

/-- average_feedback_score field: None when no score was collected, then
round(avg, 2) behind a truthiness guard that also maps 0.0 to None. -/
def avgScoreField (scores : List ℚ) : Option ℚ :=
  if scores.isEmpty then none
  else
    let q := scores.sum / (scores.length : ℚ)
    if q = 0 then none else some (pyRound2 q)

/-- average_duration field: SQL AVG skips NULLs and is NULL on no rows;
int(avg) sits behind the same kind of truthiness guard. -/
def avgDurationField (durations : List ℤ) : Option ℤ :=
  if durations.isEmpty then none
  else
    let q : ℚ := (durations.sum : ℚ) / (durations.length : ℚ)
    if q = 0 then none else some (truncToInt q)

/-- One entry of recent_validations. -/
structure RecentValidation where
  startup_name : String
  status : String
  feedback_score : Option VarVal
  validated_at : Nat
  deriving DecidableEq, Repr

/-- Response body of GET /validation/analytics/summary. -/
structure AnalyticsSummary where
  total_calls : Nat
  completed_calls : Nat
  failed_calls : Nat
  active_calls : Nat
  average_duration : Option ℤ
  average_feedback_score : Option ℚ
  recent_validations : List RecentValidation
  deriving DecidableEq, Repr

/-- get_validation_analytics (src/startup_validation.py): status counts and
average duration over all of the founder's rows, feedback-score average
over the five most recent rows only. -/
def getValidationAnalytics (db : List VCall) (fid : Nat) : AnalyticsSummary :=
  let mine := founderCalls db fid
  let recent := recentCalls db fid
  { total_calls := mine.length
    completed_calls := (mine.filter (fun c => c.status == "completed")).length
    failed_calls := (mine.filter (fun c => c.status == "failed")).length
    active_calls := (mine.filter (fun c => c.status == "in_progress")).length
    average_duration := avgDurationField (mine.filterMap (fun c => c.duration))
    average_feedback_score := avgScoreField (feedbackScores db fid)
    recent_validations := recent.map (fun c =>
      { startup_name := c.startup_name
        status := c.status
        feedback_score :=
          match c.extracted_variables with
          | none => none
          | some vars => if vars.isEmpty then none else List.lookup "feedback_score" vars
        validated_at := c.created_at }) }

/-- Concrete founder fixture used to exercise the auth theorems. -/
def founderW : Founder := { id := 1, email := "a@x.com", password_hash := "hash-pw" }

/-- Concrete password verifier for witnesses: the stored hash of a password
p is the string "hash-" glued to p. -/
def verifyW : String → String → Bool := fun p h => h == ("hash-" ++ p)

/-- Identity signer for witnesses. -/
def signW : String → String := fun e => e

/-- Provider reply fixture: a 503 failure. -/
def failReplyW : ProviderReply := { status_code := 503, text := "boom" }

/-- Provider reply fixture: success carrying requestId abc123. -/
def okReplyW : ProviderReply :=
  { status_code := 200, json := { requestId := some "abc123", status := some "queued" } }

/-- Ledger fixture: one cancelled call whose key matches an incoming
webhook for provider call 7. -/
def row8 : VCall := { founder_id := 1, call_id := "omnidim-7", status := "cancelled" }

/-- Webhook payload fixture for provider call 7. -/
def payload8 : WebhookPayload := { call_id := 7 }

/-- Ledger fixture for the analytics average: three calls whose
extracted-variables carry a parseable score, an unparseable one, and
nothing. -/
def exDb9w : List VCall :=
  [{ founder_id := 1, call_id := "omnidim-a", created_at := 3,
     extracted_variables := some [("feedback_score", VarVal.str "4.5")] },
   { founder_id := 1, call_id := "omnidim-b", created_at := 2,
     extracted_variables := some [("feedback_score", VarVal.str "bad")] },
   { founder_id := 1, call_id := "omnidim-c", created_at := 1 }]

/-- Ledger fixture with six calls for one founder where only the oldest
call carries a feedback score. -/
def exDb9c : List VCall :=
  [{ founder_id := 1, call_id := "omnidim-f1", created_at := 1,
     extracted_variables := some [("feedback_score", VarVal.str "4.5")] },
   { founder_id := 1, call_id := "omnidim-f2", created_at := 2 },
   { founder_id := 1, call_id := "omnidim-f3", created_at := 3 },
   { founder_id := 1, call_id := "omnidim-f4", created_at := 4 },
   { founder_id := 1, call_id := "omnidim-f5", created_at := 5 },
   { founder_id := 1, call_id := "omnidim-f6", created_at := 6 }]

/-- Ledger fixture: a single call whose feedback score is the number 0. -/
def exDb10 : List VCall :=
  [{ founder_id := 1, call_id := "omnidim-z", created_at := 1,
     extracted_variables := some [("feedback_score", VarVal.num 0)] }]

/-- Ledger fixture: one live call owned by founder 1. -/
def db7 : List VCall := [{ founder_id := 1, call_id := "omnidim-b", status := "initiated" }]

/-- Ledger fixture: one call stored under key omnidim-abc123. -/
def db2w : List VCall := [{ founder_id := 1, call_id := "omnidim-abc123" }]

/-- Webhook payload fixture for provider call 123. -/
def payload2w : WebhookPayload := { call_id := 123 }

/- ------------------------------------------------------------------ -/
/- Helper lemmas                                                      -/
/- ------------------------------------------------------------------ -/

theorem listMapIdOfFix {α : Type} (f : α → α) :
    ∀ l : List α, (∀ x ∈ l, f x = x) → l.map f = l
  | [], _ => rfl
  | x :: xs, h => by
    have hx := h x (List.mem_cons_self x xs)
    have hxs := listMapIdOfFix f xs (fun y hy => h y (List.mem_cons_of_mem x hy))
    simp [hx, hxs]

theorem listGetDMapFix {α : Type} (f : α → α) (l : List α) (i : Nat) (d : α)
    (h : i < l.length) : (l.map f).getD i d = f (l.getD i d) := by
  have h2 : i < (l.map f).length := by simpa using h
  rw [List.getD_eq_getElem l d h, List.getD_eq_getElem (l.map f) d h2, List.getElem_map]

/- ------------------------------------------------------------------ -/
/- Claim theorems                                                     -/
/- ------------------------------------------------------------------ -/

/-- C1: for every ledger, founder and call id, when no row matches both
the call id and the caller's founder id — the row is absent entirely, or
it belongs to another founder — get_validation_call and
cancel_validation_call both fail with the one shared 404 NotFound error
(same status, same message) and cancel leaves the ledger unchanged. -/
theorem c1_get_cancel_uniform_notfound (db : List VCall) (fid : Nat) (cid : String)
    (h : ∀ c ∈ db, c.call_id = cid → c.founder_id ≠ fid) :
    getValidationCall db fid cid = .error notFoundErr ∧
    ∀ outcome now, cancelValidationCall db fid cid outcome now = (db, .error notFoundErr) := by
  have hf : findOwnedCall db cid fid = none := by
    rw [findOwnedCall, List.find?_eq_none]
    intro c hc
    simp only [Bool.and_eq_true, beq_iff_eq, not_and]
    intro h1 h2
    exact h c hc h1 h2
  refine ⟨?_, ?_⟩
  · simp [getValidationCall, hf]
  · intro outcome now
    simp [cancelValidationCall, hf]

/-- C1 witness: an empty ledger, and a ledger whose only row with the
requested call id belongs to founder 2 while founder 1 asks. -/
theorem c1_get_cancel_uniform_notfound_witness :
    getValidationCall [] 1 "omnidim-x" = .error notFoundErr ∧
    getValidationCall [{ founder_id := 2, call_id := "omnidim-x" }] 1 "omnidim-x"
      = .error notFoundErr ∧
    cancelValidationCall [{ founder_id := 2, call_id := "omnidim-x" }] 1 "omnidim-x"
      .transportError 5
      = ([{ founder_id := 2, call_id := "omnidim-x" }], .error notFoundErr) :=
  ⟨(c1_get_cancel_uniform_notfound [] 1 "omnidim-x" (by simp)).1,
   (c1_get_cancel_uniform_notfound [{ founder_id := 2, call_id := "omnidim-x" }]
      1 "omnidim-x" (by decide)).1,
   (c1_get_cancel_uniform_notfound [{ founder_id := 2, call_id := "omnidim-x" }]
      1 "omnidim-x" (by decide)).2 .transportError 5⟩

/-- C3: for every ledger, when the owned row for the call id has status
completed or failed, cancel_validation_call fails with the Conflict error
(400, cannot cancel a completed or failed call) and returns the ledger
exactly as it was — no field of any row changes. -/
theorem c3_cancel_terminal_conflict (db : List VCall) (fid : Nat) (cid : String)
    (outcome : TransportResult) (now : Nat) (c : VCall)
    (h1 : findOwnedCall db cid fid = some c)
    (h2 : c.status = "completed" ∨ c.status = "failed") :
    cancelValidationCall db fid cid outcome now = (db, .error cancelTerminalErr) := by
  have hb : (c.status == "completed" || c.status == "failed") = true := by
    rcases h2 with h | h <;> simp [h]
  simp [cancelValidationCall, h1, hb]

/-- C3 witness: cancelling a completed call owned by the caller. -/
theorem c3_cancel_terminal_conflict_witness :
    cancelValidationCall [{ founder_id := 1, call_id := "omnidim-a", status := "completed" }]
      1 "omnidim-a" (.response 200) 9
      = ([{ founder_id := 1, call_id := "omnidim-a", status := "completed" }],
         .error cancelTerminalErr) :=
  c3_cancel_terminal_conflict _ 1 "omnidim-a" (.response 200) 9
    { founder_id := 1, call_id := "omnidim-a", status := "completed" }
    (by decide) (Or.inl rfl)

/-- C5: for every credential table, a login whose email matches no active
account and a login whose email matches an active account but whose
password fails verification both produce the one shared 401 Unauthenticated
error — identical status and identical message, no distinguishing signal. -/
theorem c5_login_uniform_error (verifyPw : String → String → Bool)
    (signToken : String → String) (db : List Founder)
    (e1 p1 e2 p2 : String) (f : Founder)
    (h1 : ∀ g ∈ db, g.email = e1 → g.is_active = false)
    (h2 : db.find? (fun g => g.email == e2 && g.is_active) = some f)
    (h3 : verifyPw p2 f.password_hash = false) :
    loginFounder verifyPw signToken db e1 p1 = .error loginUnauthErr ∧
    loginFounder verifyPw signToken db e2 p2 = .error loginUnauthErr := by
  have hf : db.find? (fun g => g.email == e1 && g.is_active) = none := by
    rw [List.find?_eq_none]
    intro g hg
    simp only [Bool.and_eq_true, beq_iff_eq, not_and]
    intro hge
    simp [h1 g hg hge]
  exact ⟨by simp [loginFounder, hf], by simp [loginFounder, h2, h3]⟩

/-- C5 witness: one active founder; an unknown email and a wrong password
yield the same error value. -/
theorem c5_login_uniform_error_witness :
    loginFounder verifyW signW [founderW] "b@x.com" "pw" = .error loginUnauthErr ∧
    loginFounder verifyW signW [founderW] "a@x.com" "wrong" = .error loginUnauthErr :=
  c5_login_uniform_error verifyW signW [founderW] "b@x.com" "pw" "a@x.com" "wrong"
    founderW (by decide) (by decide) (by decide)

/-- C6: for every credential table already holding an account with the
requested email, register_founder fails with the Conflict error (400,
email already registered) and returns the table unchanged — the stored
account is untouched and no second row is inserted. -/
theorem c6_register_duplicate_conflict (hashPw signToken : String → String)
    (db : List Founder) (reg : FounderRegister) (newId now : Nat)
    (h : ∃ f ∈ db, f.email = reg.email) :
    registerFounder hashPw signToken db reg newId now = (db, .error emailConflictErr) := by
  obtain ⟨f, hf, he⟩ := h
  have hs : (db.find? (fun g => g.email == reg.email)).isSome := by
    rw [List.find?_isSome]
    exact ⟨f, hf, by simp [he]⟩
  obtain ⟨g, hg⟩ := Option.isSome_iff_exists.mp hs
  simp [registerFounder, hg]

/-- C6 witness: registering a second account with founderW's email. -/
theorem c6_register_duplicate_conflict_witness :
    registerFounder (fun p => "hash-" ++ p) signW [founderW]
      { email := "a@x.com", password := "newpw" } 2 7
      = ([founderW], .error emailConflictErr) :=
  c6_register_duplicate_conflict (fun p => "hash-" ++ p) signW [founderW]
    { email := "a@x.com", password := "newpw" } 2 7 ⟨founderW, by decide, by decide⟩

/-- C7: for every ledger holding a live owned row for the call id, when
the outbound provider DELETE fails at the transport level, cancel does not
surface a hard error: the row is still set to cancelled locally and the
caller gets the success message warning that cancellation happened
locally. -/
theorem c7_cancel_transport_degraded (db : List VCall) (fid : Nat) (cid : String)
    (now : Nat) (c : VCall)
    (h1 : findOwnedCall db cid fid = some c)
    (h2 : c.status ≠ "completed") (h3 : c.status ≠ "failed") :
    cancelValidationCall db fid cid .transportError now
      = (db.map (cancelUpdRow cid now), .ok cancelLocalMsg) ∧
    ∀ r ∈ (cancelValidationCall db fid cid .transportError now).1,
      r.call_id = cid → r.status = "cancelled" := by
  have hb : (c.status == "completed" || c.status == "failed") = false := by
    simp [h2, h3]
  have he : cancelValidationCall db fid cid .transportError now
      = (db.map (cancelUpdRow cid now), .ok cancelLocalMsg) := by
    simp [cancelValidationCall, h1, hb]
  refine ⟨he, ?_⟩
  rw [he]
  intro r hr hcid
  obtain ⟨a, ha, rfl⟩ := List.mem_map.mp hr
  by_cases hac : a.call_id = cid
  · simp [cancelUpdRow, hac]
  · have hfix : cancelUpdRow cid now a = a := by simp [cancelUpdRow, hac]
    rw [hfix] at hcid
    exact absurd hcid hac

/-- C7 witness: transport failure while cancelling a live owned call still
yields the locally-cancelled row and the warning message. -/
theorem c7_cancel_transport_degraded_witness :
    cancelValidationCall db7 1 "omnidim-b" .transportError 4
      = ([{ founder_id := 1, call_id := "omnidim-b", status := "cancelled", updated_at := 4 }],
         .ok cancelLocalMsg) := by
  have h := c7_cancel_transport_degraded db7 1 "omnidim-b" 4
    { founder_id := 1, call_id := "omnidim-b", status := "initiated" }
    (by decide) (by decide) (by decide)
  rw [h.1]
  rfl

/-- C2: for every ledger and every webhook payload, the handler answers
success, any row whose stored call_id differs from the glued key (the
provider tag plus the payload's integer call id, compared character for
character) is left untouched at its position, and when no row carries that
exact key the ledger comes back unchanged — zero rows updated, no error. -/
theorem c2_webhook_exact_match (db : List VCall) (p : WebhookPayload)
    (parseDate : String → Option Nat) (now : Nat) :
    (omnidimWebhook db p parseDate now).2 = webhookSuccess ∧
    (∀ i, i < db.length → ∀ d : VCall,
      (db.getD i d).call_id ≠ webhookKey p →
      (omnidimWebhook db p parseDate now).1.getD i d = db.getD i d) ∧
    ((∀ r ∈ db, r.call_id ≠ webhookKey p) → (omnidimWebhook db p parseDate now).1 = db) := by
  refine ⟨rfl, ?_, ?_⟩
  · intro i hi d hne
    have hm : (omnidimWebhook db p parseDate now).1
        = db.map (webhookUpdRow p ((parseDate p.call_date).getD now) now) := rfl
    rw [hm, listGetDMapFix _ _ _ _ hi]
    simp only [webhookUpdRow, beq_iff_eq]
    rw [if_neg hne]
  · intro hall
    have hm : (omnidimWebhook db p parseDate now).1
        = db.map (webhookUpdRow p ((parseDate p.call_date).getD now) now) := rfl
    rw [hm]
    apply listMapIdOfFix
    intro r hr
    simp [webhookUpdRow, hall r hr]

/-- C2 witness: the spec scenario — a row stored as omnidim-abc123 and a
webhook for call id 123 (key omnidim-123): no row is updated and the
handler still answers success. -/
theorem c2_webhook_exact_match_witness :
    (omnidimWebhook db2w payload2w (fun _ => none) 3).1 = db2w ∧
    (omnidimWebhook db2w payload2w (fun _ => none) 3).2 = webhookSuccess :=
  ⟨(c2_webhook_exact_match db2w payload2w (fun _ => none) 3).2.2 (by decide),
   (c2_webhook_exact_match db2w payload2w (fun _ => none) 3).1⟩

/-- C8 counterexample: the claim says a cancelled call never transitions
to completed, but the webhook UPDATE filters only on call_id, so a
delivery for a cancelled call overwrites its status with completed. -/
theorem c8_counterexample :
    row8.status = "cancelled" ∧
    (omnidimWebhook [row8] payload8 (fun _ => none) 10).1.map (fun r => r.status)
      = ["completed"] :=
  ⟨rfl, rfl⟩

/-- C8 amended: the webhook sets every row matching the call identifier to
status completed regardless of its previous status — a cancelled call
included — and leaves every other row's status unchanged; completed is the
only status a webhook ever writes. -/
theorem c8_amended_webhook_overwrites (db : List VCall) (p : WebhookPayload)
    (parseDate : String → Option Nat) (now : Nat) (i : Nat) (d : VCall)
    (h : i < db.length) :
    ((omnidimWebhook db p parseDate now).1.getD i d).status
      = if (db.getD i d).call_id = webhookKey p then "completed"
        else (db.getD i d).status := by
  have hm : (omnidimWebhook db p parseDate now).1
      = db.map (webhookUpdRow p ((parseDate p.call_date).getD now) now) := rfl
  rw [hm, listGetDMapFix _ _ _ _ h]
  by_cases hc : (db.getD i d).call_id = webhookKey p
  · simp only [webhookUpdRow, beq_iff_eq]
    rw [if_pos hc, if_pos hc]
  · simp only [webhookUpdRow, beq_iff_eq]
    rw [if_neg hc, if_neg hc]

/-- C8 amended witness: a webhook for the cancelled row8 rewrites its
status to completed. -/
theorem c8_amended_webhook_overwrites_witness :
    ((omnidimWebhook [row8] payload8 (fun _ => none) 10).1.getD 0 default).status
      = "completed" := by
  have h := c8_amended_webhook_overwrites [row8] payload8 (fun _ => none) 10 0 default
    (by decide)
  rw [h]
  rfl

/-- C4: for every initiate-call request, when the provider answers with a
non-200 status or its body lacks a truthy requestId, the whole operation
fails with an error and the ledger is unchanged — no partial row; when the
provider succeeds with requestId s, exactly one row is appended, keyed
omnidim-s, with status initiated and empty placeholder metadata fields. -/
theorem c4_initiate_atomic (db : List VCall) (fid : Nat) (phone : String)
    (reply : ProviderReply) (now newRowId : Nat) :
    ((reply.status_code ≠ 200 ∨ reply.json.requestId = none ∨
        reply.json.requestId = some "") →
      (initiateValidationCall db fid phone reply now newRowId).1 = db ∧
      ∃ e, (initiateValidationCall db fid phone reply now newRowId).2 = Except.error e) ∧
    (∀ s, reply.status_code = 200 → reply.json.requestId = some s → s ≠ "" →
      ∃ r resp, initiateValidationCall db fid phone reply now newRowId
          = (db ++ [r], Except.ok resp) ∧
        r.call_id = "omnidim-" ++ s ∧ r.status = "initiated" ∧
        r.startup_name = "" ∧ r.industry = "" ∧ r.business_model = "" ∧
        r.target_market = "" ∧ r.additional_context = some "" ∧
        r.duration = none ∧ r.transcript = none ∧
        r.extracted_variables = none ∧ resp.call_id = "omnidim-" ++ s) := by
  constructor
  · intro hfail
    have hinner : ∃ e, initiateInner db fid phone reply now newRowId = .error e := by
      by_cases hsc : reply.status_code = 200
      · rcases hfail with h | h | h
        · exact absurd hsc h
        · exact ⟨⟨500, "Omnidim did not return a requestId"⟩,
            by simp [initiateInner, createOmnidimCall, hsc, h]⟩
        · exact ⟨⟨500, "Omnidim did not return a requestId"⟩,
            by simp [initiateInner, createOmnidimCall, hsc, h]⟩
      · exact ⟨⟨reply.status_code, "Failed to create call: " ++ reply.text⟩,
          by simp [initiateInner, createOmnidimCall, hsc]⟩
    obtain ⟨e, he⟩ := hinner
    refine ⟨?_, ⟨⟨500, "Failed to initiate validation call: " ++ e.detail⟩, ?_⟩⟩ <;>
      simp [initiateValidationCall, he]
  · intro s h200 hrid hs
    have hinner : initiateInner db fid phone reply now newRowId
        = .ok (db ++ [{ id := newRowId, founder_id := fid, call_id := "omnidim-" ++ s,
                        phone_number := phone, created_at := now, updated_at := now }],
               { call_id := "omnidim-" ++ s, status := reply.json.status.getD "initiated",
                 message := "Validation call initiated successfully",
                 phone_number := phone, scheduled_at := now }) := by
      simp [initiateInner, createOmnidimCall, h200, hrid, hs]
    refine ⟨{ id := newRowId, founder_id := fid, call_id := "omnidim-" ++ s,
              phone_number := phone, created_at := now, updated_at := now },
            { call_id := "omnidim-" ++ s, status := reply.json.status.getD "initiated",
              message := "Validation call initiated successfully",
              phone_number := phone, scheduled_at := now },
            ?_, rfl, rfl, rfl, rfl, rfl, rfl, rfl, rfl, rfl, rfl, rfl⟩
    simp [initiateValidationCall, hinner]

/-- C4 witness: a 503 provider reply writes nothing and errors; a 200
reply carrying requestId abc123 appends the omnidim-abc123 row with status
initiated. -/
theorem c4_initiate_atomic_witness :
    ((initiateValidationCall [] 1 "+15551234" failReplyW 2 1).1 = [] ∧
      ∃ e, (initiateValidationCall [] 1 "+15551234" failReplyW 2 1).2 = Except.error e) ∧
    (∃ r resp, initiateValidationCall [] 1 "+15551234" okReplyW 2 1
        = ([] ++ [r], Except.ok resp) ∧
      r.call_id = "omnidim-abc123" ∧ r.status = "initiated") := by
  constructor
  · exact (c4_initiate_atomic [] 1 "+15551234" failReplyW 2 1).1 (Or.inl (by decide))
  · obtain ⟨r, resp, hmain, hcid, hstat, _⟩ :=
      (c4_initiate_atomic [] 1 "+15551234" okReplyW 2 1).2 "abc123" rfl rfl (by decide)
    exact ⟨r, resp, hmain, hcid, hstat⟩

theorem feedbackScores9w : feedbackScores exDb9w 1 = [(9 / 2 : ℚ)] := by
  simp [feedbackScores, recentCalls, founderCalls, sortByCreatedDesc, insertByCreatedDesc,
    exDb9w, feedbackScoreOf, parseDecimal, splitIntFrac, digitsToNat, digitsToNatGo,
    pyFloat, List.lookup]
  norm_num

theorem feedbackScores9c : feedbackScores exDb9c 1 = [] := by
  simp [feedbackScores, recentCalls, founderCalls, sortByCreatedDesc, insertByCreatedDesc,
    exDb9c, feedbackScoreOf, pyFloat, List.lookup]

theorem feedbackScores10 : feedbackScores exDb10 1 = [(0 : ℚ)] := by
  simp [feedbackScores, recentCalls, founderCalls, sortByCreatedDesc, insertByCreatedDesc,
    exDb10, feedbackScoreOf, pyFloat, List.lookup]

/-- C9 counterexample: the claim averages feedback scores over each of the
account's calls, but the code only looks at the five most recent rows —
with six calls whose only score (4.5) sits on the oldest row, the scores
over all calls are exactly [4.5], yet the reported average is null. -/
theorem c9_counterexample :
    (founderCalls exDb9c 1).filterMap feedbackScoreOf = [(9 / 2 : ℚ)] ∧
    (getValidationAnalytics exDb9c 1).average_feedback_score = none := by
  constructor
  · simp [founderCalls, exDb9c, feedbackScoreOf, parseDecimal, splitIntFrac, digitsToNat,
      digitsToNatGo, pyFloat, List.lookup]
    norm_num
  · simp [getValidationAnalytics, avgScoreField, feedbackScores9c]

/-- C9 amended: the reported average feedback score is taken over the
parseable feedback_score values of the account's five most recent calls
only (missing or non-numeric entries silently excluded, not zeroed): when
at least one score parses and the mean is nonzero, the field is
round(mean, 2); on the spec's three-call example the result is 4.5. -/
theorem c9_amended_avg_recent_five (db : List VCall) (fid : Nat)
    (h1 : feedbackScores db fid ≠ [])
    (h2 : (feedbackScores db fid).sum / ((feedbackScores db fid).length : ℚ) ≠ 0) :
    (getValidationAnalytics db fid).average_feedback_score
      = some (pyRound2 ((feedbackScores db fid).sum / ((feedbackScores db fid).length : ℚ))) := by
  have hne : (feedbackScores db fid).isEmpty = false := by
    simpa [List.isEmpty_iff] using h1
  simp [getValidationAnalytics, avgScoreField, hne, h2]

/-- C9 amended witness: three calls with scores "4.5", "bad", and none
yield average feedback score 4.5. -/
theorem c9_amended_avg_recent_five_witness :
    (getValidationAnalytics exDb9w 1).average_feedback_score = some (9 / 2 : ℚ) := by
  have h := c9_amended_avg_recent_five exDb9w 1
    (by rw [feedbackScores9w]; simp)
    (by rw [feedbackScores9w]; norm_num)
  rw [h, feedbackScores9w]
  norm_num [pyRound2]

/-- C10: for every account whose considered calls all carry the numeric
feedback score 0 (at least one of them), the true mean is 0.0 but the
reported average_feedback_score is null, because the field sits behind a
truthiness guard on the computed average. -/
theorem c10_zero_scores_reported_null (db : List VCall) (fid : Nat)
    (h1 : feedbackScores db fid ≠ [])
    (h2 : ∀ q ∈ feedbackScores db fid, q = 0) :
    (getValidationAnalytics db fid).average_feedback_score = none := by
  have hne : (feedbackScores db fid).isEmpty = false := by
    simpa [List.isEmpty_iff] using h1
  have hsum : (feedbackScores db fid).sum = 0 := List.sum_eq_zero h2
  have hz : (feedbackScores db fid).sum / ((feedbackScores db fid).length : ℚ) = 0 := by
    rw [hsum]
    simp
  simp [getValidationAnalytics, avgScoreField, hne, hz]

/-- C10 witness: one call scored 0 reports a null average. -/
theorem c10_zero_scores_reported_null_witness :
    (getValidationAnalytics exDb10 1).average_feedback_score = none :=
  c10_zero_scores_reported_null exDb10 1
    (by rw [feedbackScores10]; simp)
    (by rw [feedbackScores10]; simp)
